import Mathlib

/-!
Verification development for the Smart Window coordinator servers
(repository app_visualisation).

The repository contains several Express server variants plus an ESP32
sketch.  The definitions below are a shallow embedding of the handlers and
loops the claims are about:

* `shouldWindowBeOpen` — the pure decision function (identical in
  src/backend/src/server.js lines 221-236 and src/unnamed/part_001 lines
  155-170).  JS numbers that may be `null` are modelled as `Option ℚ`;
  a JS relational comparison coerces `null` to `0`, which `toNum` captures.
* `mapNormalizedToLegacy` — src/unnamed/part_001 lines 437-482, restricted
  to the fields that feed `shouldWindowBeOpen` (the `unit`/`status`/
  `intensity` display strings and `temperature` never influence control
  flow and are omitted).
* `control`, `autoUpdateStep` — the windowState machine of the variant
  with state `{isOpen, autoMode, lastUpdated}`: manual-control handler
  (server.js lines 334-351, part_001 lines 516-533) and the body of the
  automatic-decision `setInterval` loop (server.js lines 405-448, part_001
  lines 555-570); the decision value computed from weather data is passed
  in as the `shouldBeOpen` argument.
* `controlB`, `windowStatusB`, `controlMid` — the variants that keep a
  separate `currentCommand` in `{AUTO, OPEN, CLOSE}` next to a
  device-reported `windowState`: the priority-ordered control handler of
  part_001 lines 623-650 (`controlB`), the status handler shared by those
  variants (part_001 lines 653-658, server.js lines 100-105:
  `windowStatusB`), and the control handler of server.js lines 78-97
  (`controlMid`).
* `safeFetchJson`, `refreshExternalData` — server.js lines 167-210; the
  outcome of each network fetch is passed in as a `FetchResult`.
-/

namespace SmartWindow

/-- JS `ToNumber` coercion used by relational comparison: `null` compares
as `0`, a number compares as itself. -/
def toNum : Option ℚ → ℚ
  | none => 0
  | some q => q

/-- One field of the legacy weather shape, e.g. `pollution.value`; the
value is `null`able (`european_aqi ?? null` in `mapNormalizedToLegacy`). -/
structure MetricValue where
  value : Option ℚ
  deriving DecidableEq, Repr

/-- The legacy weather shape consumed by `shouldWindowBeOpen`
(`{ pollution, sunlight, windSpeed }` after destructuring). -/
structure WeatherData where
  pollution : MetricValue
  sunlight : MetricValue
  windSpeed : MetricValue
  deriving DecidableEq, Repr

/-- shouldWindowBeOpen, server.js lines 221-236 / part_001 lines 155-170:
close if pollution.value > 70; close if windSpeed.value > 40; open if
sunlight.value > 50 and pollution.value < 50 and windSpeed.value < 30;
otherwise closed. -/
def shouldWindowBeOpen (weatherData : WeatherData) : Bool :=
  if toNum weatherData.pollution.value > 70 then false
  else if toNum weatherData.windSpeed.value > 40 then false
  else if toNum weatherData.sunlight.value > 50 ∧ toNum weatherData.pollution.value < 50 ∧
      toNum weatherData.windSpeed.value < 30 then true
  else false

/-- The normalized Open-Meteo shape returned by `fetchAndNormalizeOpenMeteo`
(part_001 lines 404-413), restricted to the fields `mapNormalizedToLegacy`
reads. -/
structure NormalizedReading where
  temperature : Option ℚ
  wind_speed : Option ℚ
  is_day : Option Bool
  european_aqi : Option ℚ
  deriving DecidableEq, Repr

/-- mapNormalizedToLegacy, part_001 lines 437-482, on the fields feeding
`shouldWindowBeOpen`: `pollution.value := european_aqi ?? null`,
`sunlight.value := is_day ? 100 : 0` (a random percentage `randPct` when
`is_day` is `null`), `windSpeed.value := wind_speed ?? null`. -/
def mapNormalizedToLegacy (randPct : ℚ) (normalized : NormalizedReading) : WeatherData :=
  let sunlightValue : ℚ :=
    match normalized.is_day with
    | none => randPct
    | some d => if d then 100 else 0
  { pollution := ⟨normalized.european_aqi⟩
    sunlight := ⟨some sunlightValue⟩
    windSpeed := ⟨normalized.wind_speed⟩ }

/-- The in-memory `windowState` of the variant at server.js lines 121-125 /
part_001 lines 121-125: `{ isOpen, lastUpdated, autoMode }`.  Timestamps
are modelled as naturals (milliseconds). -/
structure WindowState where
  isOpen : Bool
  autoMode : Bool
  lastUpdated : Nat
  deriving DecidableEq, Repr

/-- The JSON body of a manual-control response of that variant:
`{ success: true, state: windowState }`. -/
structure ControlResponse where
  success : Bool
  state : WindowState
  deriving DecidableEq, Repr

/-- Manual-control handler, server.js lines 334-351 / part_001 lines
516-533: if `autoMode` is present, write it; then, if `action` is
`"open"` or `"close"`, set `isOpen` accordingly, stamp `lastUpdated`,
and force `autoMode := false`; respond `{ success: true, state }`. -/
def control (action : Option String) (autoMode : Option Bool) (now : Nat)
    (s : WindowState) : WindowState × ControlResponse :=
  let s1 := match autoMode with
    | some b => { s with autoMode := b }
    | none => s
  let s2 :=
    if action = some "open" ∨ action = some "close" then
      { s1 with isOpen := action == some "open", lastUpdated := now, autoMode := false }
    else s1
  (s2, { success := true, state := s2 })

/-- Body of the automatic-decision `setInterval` loop, server.js lines
405-448 / part_001 lines 555-570: return immediately unless
`windowState.autoMode`; otherwise, if the computed `shouldBeOpen` differs
from `isOpen`, write it and stamp `lastUpdated`. -/
def autoUpdateStep (shouldBeOpen : Bool) (now : Nat) (s : WindowState) : WindowState :=
  if !s.autoMode then s
  else if s.isOpen != shouldBeOpen then
    { s with isOpen := shouldBeOpen, lastUpdated := now }
  else s

/-- The spec-level mode enumeration; in this variant the mode is derived
from `autoMode` and the commanded position. -/
inductive Mode
  | AUTO
  | FORCE_OPEN
  | FORCE_CLOSE
  deriving DecidableEq, Repr

/-- Derived mode of the `{isOpen, autoMode}` variant: AUTO when
`autoMode`, otherwise the FORCE value matching the commanded position. -/
def mode (s : WindowState) : Mode :=
  if s.autoMode then Mode.AUTO
  else if s.isOpen then Mode.FORCE_OPEN else Mode.FORCE_CLOSE

/-- currentCommand of the `{isOpen, autoMode}` variant: `isOpen` is the
commanded position handed out (there is no separate device report in this
variant). -/
def currentCommand (s : WindowState) : Bool := s.isOpen

/-- setManual(open) as the spec names it: a manual-control request whose
`action` is `"open"` or `"close"` (no `autoMode` field), routed through
the control handler. -/
def setManual (wantOpen : Bool) (now : Nat) (s : WindowState) : WindowState :=
  (control (some (if wantOpen then "open" else "close")) none now s).1

/-- DECISION_INTERVAL, server.js line 164: 1800 seconds by default. -/
def DECISION_INTERVAL : Nat := 1800

/-- Period of the automatic-decision `setInterval`, server.js line 448:
`Math.max(1, DECISION_INTERVAL) * 1000` milliseconds. -/
def decisionIntervalMs : Nat := Nat.max 1 DECISION_INTERVAL * 1000

/-- State after `k` firings of the automatic-decision `setInterval` loop
with period `P` milliseconds starting at time `t0`: the `k`-th callback
runs at time `t0 + (k+1) * P` (the setInterval contract) with the decision
`decisions k` computed from the weather at that moment. -/
def autoRun (P : Nat) (s0 : WindowState) (decisions : Nat → Bool) (t0 : Nat) : Nat → WindowState
  | 0 => s0
  | k + 1 => autoUpdateStep (decisions k) (t0 + (k + 1) * P) (autoRun P s0 decisions t0 k)

/-- The command variable `currentCommand` of the variants at server.js
lines 39-109 and part_001 lines 584-662: `'AUTO' | 'OPEN' | 'CLOSE'`. -/
inductive Cmd
  | AUTO
  | OPEN
  | CLOSE
  deriving DecidableEq, Repr

/-- commandedOpen encoded by a command value, for comparing against the
spec's CoordinatorState: `OPEN`/`CLOSE` command a position, `AUTO`
delegates (no forced position). -/
def commandedOpen : Cmd → Option Bool
  | Cmd.AUTO => none
  | Cmd.OPEN => some true
  | Cmd.CLOSE => some false

/-- The `windowState` of those variants: `{ isOpen, temp, aqi,
lastUpdated }`, where `isOpen` is the device-REPORTED position written by
the `/api/window/log` handler. -/
structure DashState where
  isOpen : Bool
  temp : ℚ
  aqi : ℚ
  lastUpdated : Nat
  deriving DecidableEq, Repr

/-- Full server state of those variants: the dashboard `windowState` plus
the manual `currentCommand` variable. -/
structure ServerStateB where
  windowState : DashState
  currentCommand : Cmd
  deriving DecidableEq, Repr

/-- The JSON body `{ ...windowState, autoMode: currentCommand === 'AUTO' }`
returned by the status and control handlers of those variants. -/
structure StatusBody where
  isOpen : Bool
  temp : ℚ
  aqi : ℚ
  lastUpdated : Nat
  autoMode : Bool
  deriving DecidableEq, Repr

/-- The control response of those variants: `{ success: true, state:
{ ...windowState, autoMode: currentCommand === 'AUTO' } }`. -/
structure ControlResponseB where
  success : Bool
  state : StatusBody
  deriving DecidableEq, Repr

/-- Status handler, part_001 lines 653-658 / server.js lines 100-105:
spread `windowState` and add `autoMode: currentCommand === 'AUTO'`. -/
def windowStatusB (st : ServerStateB) : StatusBody :=
  { isOpen := st.windowState.isOpen
    temp := st.windowState.temp
    aqi := st.windowState.aqi
    lastUpdated := st.windowState.lastUpdated
    autoMode := st.currentCommand == Cmd.AUTO }

/-- Manual-control handler, part_001 lines 623-650.  Priority 1: an
explicit `action` (`"open"`/`"close"`) forces the command.  Priority 2:
`autoMode === true` switches to AUTO; `autoMode === false` keeps the
current position: `currentCommand = windowState.isOpen ? 'OPEN' :
'CLOSE'`. -/
def controlB (action : Option String) (autoMode : Option Bool) (st : ServerStateB) :
    ServerStateB × ControlResponseB :=
  let cmd :=
    if action = some "open" then Cmd.OPEN
    else if action = some "close" then Cmd.CLOSE
    else if autoMode = some true then Cmd.AUTO
    else if autoMode = some false then
      (if st.windowState.isOpen then Cmd.OPEN else Cmd.CLOSE)
    else st.currentCommand
  let st2 := { st with currentCommand := cmd }
  (st2, { success := true, state := windowStatusB st2 })

/-- Manual-control handler, server.js lines 78-97: `autoMode === true`
is checked FIRST, then `action === 'open'`, then `action === 'close'`;
no `autoMode === false` branch. -/
def controlMid (action : Option String) (autoMode : Option Bool) (st : ServerStateB) :
    ServerStateB × ControlResponseB :=
  let cmd :=
    if autoMode = some true then Cmd.AUTO
    else if action = some "open" then Cmd.OPEN
    else if action = some "close" then Cmd.CLOSE
    else st.currentCommand
  let st2 := { st with currentCommand := cmd }
  (st2, { success := true, state := windowStatusB st2 })

/-- Outcome of one `fetch(url)` as observed by `safeFetchJson`: a 2xx
response whose body parses, a non-ok HTTP status, a thrown network error,
or a body that fails to parse as JSON.  The parsed JSON payload is kept
abstract as a string. -/
inductive FetchResult
  | ok (json : String)
  | httpError (status : Nat) (body : String)
  | networkError (msg : String)
  | parseError (msg : String)
  deriving DecidableEq, Repr

/-- safeFetchJson, server.js lines 167-179: return the parsed JSON on a
successful response; on a non-ok status, a network error, or a parse
error, catch, log, and return `null`. -/
def safeFetchJson : FetchResult → Option String
  | FetchResult.ok json => some json
  | FetchResult.httpError _ _ => none
  | FetchResult.networkError _ => none
  | FetchResult.parseError _ => none

/-- One slot of the `cached` object: `{ source, fetchedAt, data }` as
assigned in `refreshExternalData`. -/
structure CachedEntry where
  source : String
  fetchedAt : Nat
  data : String
  deriving DecidableEq, Repr

/-- The `cached` object of server.js lines 157-161:
`{ weather, pollution, lastFetched }`, each slot initially `null`. -/
structure Cached where
  weather : Option CachedEntry
  pollution : Option CachedEntry
  lastFetched : Option Nat
  deriving DecidableEq, Repr

/-- refreshExternalData, server.js lines 182-210.  The presence of each
API key and the outcome of each fetch are passed in.  A slot is
reassigned only when its key is configured and `safeFetchJson` returned
data (`if (data) cached.weather = ...`); otherwise the previous entry is
retained.  `lastFetched` is always stamped at the end. -/
def refreshExternalData (meteosourceKey iqairKey openKey : Option String)
    (weatherFetch pollutionFetch : FetchResult) (now : Nat) (c : Cached) : Cached :=
  let weather :=
    match meteosourceKey with
    | some _ =>
      match safeFetchJson weatherFetch with
      | some d => some { source := "meteosource", fetchedAt := now, data := d }
      | none => c.weather
    | none => c.weather
  let pollution :=
    match iqairKey with
    | some _ =>
      match safeFetchJson pollutionFetch with
      | some d => some { source := "iqair", fetchedAt := now, data := d }
      | none => c.pollution
    | none =>
      match openKey with
      | some _ =>
        match safeFetchJson pollutionFetch with
        | some d => some { source := "openweather", fetchedAt := now, data := d }
        | none => c.pollution
      | none => c.pollution
  { weather := weather, pollution := pollution, lastFetched := some now }

/-! Theorems. -/

/-- Any number of automatic-decision loop firings leave a state whose
`autoMode` is off completely unchanged. -/
lemma foldl_autoUpdateStep_of_manual (ds : List (Bool × Nat)) (s : WindowState)
    (h : s.autoMode = false) :
    ds.foldl (fun st p => autoUpdateStep p.1 p.2 st) s = s := by
  induction ds with
  | nil => rfl
  | cons d tl ih =>
    have hstep : autoUpdateStep d.1 d.2 s = s := by
      simp [autoUpdateStep, h]
    simp only [List.foldl_cons, hstep]
    exact ih

/-- A manual open/close request ends in the forced state: position as
requested, `autoMode` off, timestamp stamped. -/
lemma setManual_eq (wantOpen : Bool) (now : Nat) (s : WindowState) :
    setManual wantOpen now s = ⟨wantOpen, false, now⟩ := by
  cases wantOpen <;> rfl

/-- C1: after `setManual(open)` (a manual-control request with action
'open' or 'close'), every subsequent `currentCommand()` equals that
`open` value no matter how many automatic-decision loop firings happen in
between (in particular `setManual(true)` then an automatic decision of
`false` still commands `true`). -/
theorem C1_setManual_wins_over_auto (s : WindowState) (now : Nat) (wantOpen : Bool)
    (ds : List (Bool × Nat)) :
    currentCommand
      (ds.foldl (fun st p => autoUpdateStep p.1 p.2 st) (setManual wantOpen now s)) =
      wantOpen := by
  rw [setManual_eq, foldl_autoUpdateStep_of_manual _ _ rfl]
  rfl

/-- C2: when the derived mode is FORCE_OPEN or FORCE_CLOSE, the
automatic-decision step is a no-op on the whole coordinator state, so in
particular `commandedOpen` is unchanged. -/
theorem C2_auto_noop_when_forced (shouldBeOpen : Bool) (now : Nat) (s : WindowState)
    (h : mode s = Mode.FORCE_OPEN ∨ mode s = Mode.FORCE_CLOSE) :
    autoUpdateStep shouldBeOpen now s = s := by
  have hm : s.autoMode = false := by
    cases hb : s.autoMode
    · rfl
    · exfalso; rcases h with h | h <;> simp [mode, hb] at h
  simp [autoUpdateStep, hm]

/-- Witness for C2 at a concrete FORCE_OPEN state. -/
theorem C2_auto_noop_when_forced_witness :
    autoUpdateStep false 9 ⟨true, false, 5⟩ = (⟨true, false, 5⟩ : WindowState) :=
  C2_auto_noop_when_forced false 9 ⟨true, false, 5⟩ (Or.inl (by decide))

/-- C3: `shouldWindowBeOpen` returns false whenever pollution exceeds 70
or wind exceeds 40; returns true whenever sunlight exceeds 50, pollution
is below 50 and wind is below 30; returns false in every other case; and
the two spec scenarios evaluate as stated. -/
theorem C3_decide_thresholds :
    (∀ r : WeatherData,
      ((toNum r.pollution.value > 70 ∨ toNum r.windSpeed.value > 40) →
        shouldWindowBeOpen r = false) ∧
      ((toNum r.sunlight.value > 50 ∧ toNum r.pollution.value < 50 ∧
          toNum r.windSpeed.value < 30) →
        shouldWindowBeOpen r = true) ∧
      (¬(toNum r.pollution.value > 70 ∨ toNum r.windSpeed.value > 40) ∧
        ¬(toNum r.sunlight.value > 50 ∧ toNum r.pollution.value < 50 ∧
            toNum r.windSpeed.value < 30) →
        shouldWindowBeOpen r = false)) ∧
    shouldWindowBeOpen ⟨⟨some 80⟩, ⟨some 90⟩, ⟨some 10⟩⟩ = false ∧
    shouldWindowBeOpen ⟨⟨some 30⟩, ⟨some 70⟩, ⟨some 10⟩⟩ = true := by
  refine ⟨fun r => ⟨?_, ?_, ?_⟩, by decide, by decide⟩
  · intro h
    unfold shouldWindowBeOpen
    split_ifs with h1 h2 h3
    · rfl
    · rfl
    · exfalso
      rcases h with h | h
      · exact h1 h
      · exact h2 h
    · rfl
  · intro h
    unfold shouldWindowBeOpen
    split_ifs with h1 h2
    · exfalso; linarith [h.2.1]
    · exfalso; linarith [h.2.2]
    · rfl
  · intro h
    unfold shouldWindowBeOpen
    split_ifs with h1 h2 h3
    · rfl
    · rfl
    · exact absurd h3 h.2
    · rfl

/-- Witness for C3: the pollution gate fires on Scenario A's reading. -/
theorem C3_decide_thresholds_witness :
    shouldWindowBeOpen ⟨⟨some 80⟩, ⟨some 90⟩, ⟨some 10⟩⟩ = false :=
  (C3_decide_thresholds.1 ⟨⟨some 80⟩, ⟨some 90⟩, ⟨some 10⟩⟩).1 (Or.inl (by decide))

/-- C4 counterexample: with `currentCommand = CLOSE` (commanded position
closed) but the device reporting `isOpen = true`, an `autoMode:false`
request yields `OPEN` — the commanded position changes from closed to
open, so it is not the commanded position that is frozen. -/
theorem C4_cex_commanded_not_frozen :
    (controlB none (some false) ⟨⟨true, 20, 10, 0⟩, Cmd.CLOSE⟩).1.currentCommand = Cmd.OPEN ∧
    commandedOpen
        (controlB none (some false) ⟨⟨true, 20, 10, 0⟩, Cmd.CLOSE⟩).1.currentCommand ≠
      commandedOpen Cmd.CLOSE := by
  decide

/-- C4 amended: an `autoMode:false` request without an action freezes the
current device-REPORTED position as the manual FORCE command: OPEN
(commanding open) when the device reports open, CLOSE (commanding closed)
otherwise; in particular a device reporting `isOpen=true` yields OPEN. -/
theorem C4_freeze_reported_position :
    (∀ st : ServerStateB,
      (controlB none (some false) st).1.currentCommand =
        (if st.windowState.isOpen then Cmd.OPEN else Cmd.CLOSE) ∧
      commandedOpen (controlB none (some false) st).1.currentCommand =
        some st.windowState.isOpen) ∧
    (controlB none (some false) ⟨⟨true, 21, 30, 0⟩, Cmd.AUTO⟩).1.currentCommand = Cmd.OPEN := by
  refine ⟨fun st => ?_, by decide⟩
  cases hb : st.windowState.isOpen <;> simp [controlB, commandedOpen, hb]

/-- C5 counterexample: a request with neither `action` nor `autoMode` is
not rejected — both handlers answer `success: true` (there is no error
path at all) while leaving the state unchanged. -/
theorem C5_cex_empty_request_not_rejected :
    (control none none 7 ⟨false, true, 0⟩).2.success = true ∧
    (control none none 7 ⟨false, true, 0⟩).1 = ⟨false, true, 0⟩ ∧
    (controlB none none ⟨⟨false, 20, 10, 0⟩, Cmd.AUTO⟩).2.success = true ∧
    (controlB none none ⟨⟨false, 20, 10, 0⟩, Cmd.AUTO⟩).1 = ⟨⟨false, 20, 10, 0⟩, Cmd.AUTO⟩ := by
  decide

/-- C5 amended: a request with neither `action` nor `autoMode` is
accepted with a `success: true` response and leaves the coordinator state
completely unchanged, in both manual-control handlers. -/
theorem C5_empty_request_accepted_unchanged :
    (∀ (now : Nat) (s : WindowState),
      (control none none now s).1 = s ∧ (control none none now s).2.success = true) ∧
    (∀ st : ServerStateB,
      (controlB none none st).1 = st ∧ (controlB none none st).2.success = true) :=
  ⟨fun _ _ => ⟨rfl, rfl⟩, fun _ => ⟨rfl, rfl⟩⟩

/-- C6 counterexample: the automatic-decision step itself has no interval
gate — invoked at 1000 ms and again at 2000 ms (every second), it changes
the commanded position both times, 1000 ms apart, far less than the
1 800 000 ms decision interval. -/
theorem C6_cex_no_gate_in_step :
    (autoUpdateStep true 1000 ⟨false, true, 0⟩).isOpen ≠
      (⟨false, true, 0⟩ : WindowState).isOpen ∧
    (autoUpdateStep false 2000 (autoUpdateStep true 1000 ⟨false, true, 0⟩)).isOpen ≠
      (autoUpdateStep true 1000 ⟨false, true, 0⟩).isOpen ∧
    2000 - 1000 < decisionIntervalMs := by
  decide

/-- C6 amended: the auto-decision loop body writes to the state only when
`autoMode` is on, and the once-per-interval cadence comes solely from the
scheduler: when the loop fires on the setInterval schedule with period
`P`, any two firings that change the commanded position are at least one
full period apart. -/
theorem C6_cadence_from_scheduler :
    (∀ (d : Bool) (now : Nat) (s : WindowState),
      autoUpdateStep d now s ≠ s → s.autoMode = true) ∧
    (∀ (P : Nat) (s0 : WindowState) (ds : Nat → Bool) (t0 i j : Nat), i < j →
      (autoRun P s0 ds t0 (i + 1)).isOpen ≠ (autoRun P s0 ds t0 i).isOpen →
      (autoRun P s0 ds t0 (j + 1)).isOpen ≠ (autoRun P s0 ds t0 j).isOpen →
      (t0 + (j + 1) * P) - (t0 + (i + 1) * P) ≥ P) := by
  constructor
  · intro d now s h
    by_contra hm
    have hm2 : s.autoMode = false := by
      cases hb : s.autoMode
      · rfl
      · exact absurd hb hm
    exact h (by simp [autoUpdateStep, hm2])
  · intro P s0 ds t0 i j hij _ _
    have h1 : (i + 1) * P + P ≤ (j + 1) * P := by
      have h2 : i + 2 ≤ j + 1 := by omega
      calc (i + 1) * P + P = (i + 2) * P := by ring
        _ ≤ (j + 1) * P := Nat.mul_le_mul_right P h2
    rw [Nat.add_sub_add_left]
    exact Nat.le_sub_of_add_le (by rw [Nat.add_comm]; exact h1)

/-- Witness for C6: a concrete schedule at the configured decision
interval in which consecutive firings flip the window, one interval
apart. -/
theorem C6_cadence_from_scheduler_witness :
    (⟨false, true, 0⟩ : WindowState).autoMode = true ∧
    (0 + (1 + 1) * decisionIntervalMs) - (0 + (0 + 1) * decisionIntervalMs) ≥
      decisionIntervalMs :=
  ⟨C6_cadence_from_scheduler.1 true 3 ⟨false, true, 0⟩ (by decide),
   C6_cadence_from_scheduler.2 decisionIntervalMs ⟨false, true, 0⟩ (fun k => k % 2 == 0) 0 0 1
     (by decide) (by decide) (by decide)⟩

/-- C7 counterexample: with the command forced OPEN but the device still
reporting closed, the status body's `isOpen` is `false` — the
device-reported position, not the commanded one (`some true`). -/
theorem C7_cex_status_reports_device_position :
    (windowStatusB ⟨⟨false, 18, 42, 0⟩, Cmd.OPEN⟩).isOpen = false ∧
    commandedOpen Cmd.OPEN = some true := by
  decide

/-- C7 amended: the manual-control responses and the read-only status
query all return the same projection `{ ...windowState, autoMode:
currentCommand === 'AUTO' }`, whose `isOpen` is the device-reported
position (not the commanded one), whose `lastUpdated` is the state's
timestamp, and whose `autoMode` holds exactly when the mode is AUTO. -/
theorem C7_status_projection :
    (∀ a m st, (controlB a m st).2.state = windowStatusB (controlB a m st).1) ∧
    (∀ a m st, (controlMid a m st).2.state = windowStatusB (controlMid a m st).1) ∧
    (∀ st : ServerStateB,
      (windowStatusB st).isOpen = st.windowState.isOpen ∧
      (windowStatusB st).lastUpdated = st.windowState.lastUpdated ∧
      ((windowStatusB st).autoMode = true ↔ st.currentCommand = Cmd.AUTO)) := by
  refine ⟨fun a m st => rfl, fun a m st => rfl, fun st => ⟨rfl, rfl, ?_⟩⟩
  simp [windowStatusB]

/-- C8 counterexample: in the server.js lines 78-97 handler, a request
carrying both `action: 'open'` and `autoMode: true` switches to AUTO, not
to the FORCE mode of the action. -/
theorem C8_cex_autoMode_beats_action :
    (controlMid (some "open") (some true) ⟨⟨false, 0, 0, 0⟩, Cmd.CLOSE⟩).1.currentCommand =
      Cmd.AUTO ∧
    Cmd.AUTO ≠ Cmd.OPEN := by
  decide

/-- C8 amended: an `action` of 'open'/'close' always switches the
part_001 lines 623-650 handler to the matching FORCE command (with a
success response), even when `autoMode` accompanies it; the server.js
lines 78-97 handler does so only when the request does not also carry
`autoMode: true`, which there takes priority and switches to AUTO. -/
theorem C8_action_switches_to_force :
    (∀ m st, (controlB (some "open") m st).1.currentCommand = Cmd.OPEN ∧
      (controlB (some "open") m st).2.success = true) ∧
    (∀ m st, (controlB (some "close") m st).1.currentCommand = Cmd.CLOSE ∧
      (controlB (some "close") m st).2.success = true) ∧
    (∀ m st, m ≠ some true →
      (controlMid (some "open") m st).1.currentCommand = Cmd.OPEN) ∧
    (∀ m st, m ≠ some true →
      (controlMid (some "close") m st).1.currentCommand = Cmd.CLOSE) := by
  refine ⟨fun m st => ⟨rfl, rfl⟩, fun m st => ⟨rfl, rfl⟩,
    fun m st hm => ?_, fun m st hm => ?_⟩
  · simp [controlMid, hm]
  · simp [controlMid, hm]

/-- Witness for C8: with `autoMode: false` alongside the action, the
server.js lines 78-97 handler still forces OPEN. -/
theorem C8_action_switches_to_force_witness :
    (controlMid (some "open") (some false) ⟨⟨false, 0, 0, 0⟩, Cmd.CLOSE⟩).1.currentCommand =
      Cmd.OPEN :=
  C8_action_switches_to_force.2.2.1 (some false) ⟨⟨false, 0, 0, 0⟩, Cmd.CLOSE⟩ (by decide)

/-- C9: every non-success fetch outcome becomes `null` inside
`safeFetchJson` (never an exception), a failed refresh retains the
previous cached entry for both slots unchanged, and a successful refresh
replaces the slot with a whole new entry. -/
theorem C9_failed_refresh_retains_entry :
    (∀ s b, safeFetchJson (FetchResult.httpError s b) = none) ∧
    (∀ m, safeFetchJson (FetchResult.networkError m) = none) ∧
    (∀ m, safeFetchJson (FetchResult.parseError m) = none) ∧
    (∀ mk ik okk wf pf now c, safeFetchJson wf = none →
      (refreshExternalData mk ik okk wf pf now c).weather = c.weather) ∧
    (∀ mk ik okk wf pf now c, safeFetchJson pf = none →
      (refreshExternalData mk ik okk wf pf now c).pollution = c.pollution) ∧
    (∀ k ik okk wf pf now c d, safeFetchJson wf = some d →
      (refreshExternalData (some k) ik okk wf pf now c).weather =
        some ⟨"meteosource", now, d⟩) := by
  refine ⟨fun s b => rfl, fun m => rfl, fun m => rfl, ?_, ?_, ?_⟩
  · intro mk ik okk wf pf now c h
    cases mk <;> simp [refreshExternalData, h]
  · intro mk ik okk wf pf now c h
    cases ik <;> cases okk <;> simp [refreshExternalData, h]
  · intro k ik okk wf pf now c d h
    simp [refreshExternalData, h]

/-- Witness for C9: a network error on the weather fetch and an HTTP 500
on the pollution fetch leave both cached entries exactly as they were,
and a later successful weather fetch replaces the weather entry whole. -/
theorem C9_failed_refresh_retains_entry_witness :
    safeFetchJson (FetchResult.networkError "down") = none ∧
    (refreshExternalData (some "mk") (some "ik") none (FetchResult.networkError "down")
        (FetchResult.httpError 500 "oops") 2
        ⟨some ⟨"meteosource", 1, "w0"⟩, some ⟨"iqair", 1, "p0"⟩, some 1⟩).weather =
      some ⟨"meteosource", 1, "w0"⟩ ∧
    (refreshExternalData (some "mk") (some "ik") none (FetchResult.networkError "down")
        (FetchResult.httpError 500 "oops") 2
        ⟨some ⟨"meteosource", 1, "w0"⟩, some ⟨"iqair", 1, "p0"⟩, some 1⟩).pollution =
      some ⟨"iqair", 1, "p0"⟩ ∧
    (refreshExternalData (some "mk") none none (FetchResult.ok "w1") (FetchResult.ok "p1") 3
        ⟨some ⟨"meteosource", 1, "w0"⟩, some ⟨"iqair", 1, "p0"⟩, some 1⟩).weather =
      some ⟨"meteosource", 3, "w1"⟩ :=
  ⟨C9_failed_refresh_retains_entry.2.1 "down",
   C9_failed_refresh_retains_entry.2.2.2.1 (some "mk") (some "ik") none
     (FetchResult.networkError "down") (FetchResult.httpError 500 "oops") 2
     ⟨some ⟨"meteosource", 1, "w0"⟩, some ⟨"iqair", 1, "p0"⟩, some 1⟩ rfl,
   C9_failed_refresh_retains_entry.2.2.2.2.1 (some "mk") (some "ik") none
     (FetchResult.networkError "down") (FetchResult.httpError 500 "oops") 2
     ⟨some ⟨"meteosource", 1, "w0"⟩, some ⟨"iqair", 1, "p0"⟩, some 1⟩ rfl,
   C9_failed_refresh_retains_entry.2.2.2.2.2 "mk" none none (FetchResult.ok "w1")
     (FetchResult.ok "p1") 3
     ⟨some ⟨"meteosource", 1, "w0"⟩, some ⟨"iqair", 1, "p0"⟩, some 1⟩ "w1" rfl⟩

/-- C10: a reading whose pollution value is `null` passes both pollution
gates (it compares as 0 in JS), so with sunlight above 50 and wind below
30 the decision is to open; and `mapNormalizedToLegacy` indeed produces a
`null` pollution value whenever the normalized reading has no
`european_aqi`. -/
theorem C10_null_pollution_opens :
    (∀ r : WeatherData, r.pollution.value = none →
      toNum r.sunlight.value > 50 → toNum r.windSpeed.value < 30 →
      shouldWindowBeOpen r = true) ∧
    (∀ (randPct : ℚ) (n : NormalizedReading), n.european_aqi = none →
      (mapNormalizedToLegacy randPct n).pollution.value = none) := by
  constructor
  · intro r hp hs hw
    have h0 : toNum r.pollution.value = 0 := by rw [hp]; rfl
    unfold shouldWindowBeOpen
    rw [h0]
    split_ifs with h1 h2 h3
    · exfalso; norm_num at h1
    · exfalso; linarith
    · rfl
    · exact absurd ⟨hs, by norm_num, hw⟩ h3
  · intro randPct n h
    simp [mapNormalizedToLegacy, h]

/-- Witness for C10: missing air-quality data (pollution `null`) with
full daylight and light wind commands the window open. -/
theorem C10_null_pollution_opens_witness :
    shouldWindowBeOpen ⟨⟨none⟩, ⟨some 100⟩, ⟨some 10⟩⟩ = true ∧
    (mapNormalizedToLegacy 50 ⟨none, some 10, some true, none⟩).pollution.value = none :=
  ⟨C10_null_pollution_opens.1 ⟨⟨none⟩, ⟨some 100⟩, ⟨some 10⟩⟩ rfl (by decide) (by decide),
   C10_null_pollution_opens.2 50 ⟨none, some 10, some true, none⟩ rfl⟩

end SmartWindow
